import Mathlib

/-!
Shallow embedding of the `panasonic_cc` Home Assistant integration
(`custom_components/panasonic_cc/{number,select,sensor}.py`).

The integration is adapter glue: immutable entity-description records pair a
stable key and display metadata with getter/setter closures over a vendor
device snapshot, and thin entity classes recompute cached display attributes
from the coordinator snapshot on each refresh and translate user writes into
vendor/coordinator calls.

Modelling choices:
* Python floats that reach `int(...)` are modelled as rationals, with `pyInt`
  embedding Python `int()` truncation toward zero.
* In-place mutations (builder methods, attribute assignment) become explicit
  state passing: every operation returns the new entity state, the list of
  outward effects it performed in execution order, and an `Except` result
  (`.error` when a delegated vendor/coordinator call raised, in which case the
  returned entity is the state at the moment of the raise).
* Vendor client libraries and the coordinator (`aio_panasonic_comfort_cloud`,
  `aioaquarea`, `coordinator.py`, `base.py`) are opaque collaborators outside
  this slice; they are modelled only in the shapes this code consumes
  (attribute fields, enum members, fallible async calls passed as parameters).
-/

namespace PanasonicCC

/-- Python `int(x)` on a float: truncation toward zero
(`pyInt_eq_trunc` below checks this definition against the floor/ceil view). -/
def pyInt (q : ℚ) : ℤ := q.num.tdiv q.den

/-- Python substring test `sub in s` on strings. -/
def pyIn (sub s : String) : Bool := decide (sub.data <:+: s.data)

/-- A Python exception propagating out of a delegated vendor/coordinator call. -/
inductive PyErr where
  | keyError
  | typeError
  | vendorError (code : Nat)
deriving DecidableEq, Repr

/-- A dynamically-typed Python value, as returned by sensor `get_state` getters. -/
inductive PyValue where
  | pynone
  | int (n : ℤ)
  | rat (q : ℚ)
  | str (s : String)
deriving DecidableEq, Repr

/-- `None`-or-number device field lifted to a Python value. -/
def optRat : Option ℚ → PyValue
  | Option.none => PyValue.pynone
  | some q => PyValue.rat q

/-! ### Vendor enums (opaque collaborators)

`aio_panasonic_comfort_cloud.constants` and `aioaquarea` enums, modelled with
the members this code names; only `.name` and `Enum[...]` lookup are used. -/

inductive AirSwingLR where
  | Unavailable | Left | CenterLeft | Center | CenterRight | Right
deriving DecidableEq, Repr

def AirSwingLR.name : AirSwingLR → String
  | .Unavailable => "Unavailable"
  | .Left => "Left"
  | .CenterLeft => "CenterLeft"
  | .Center => "Center"
  | .CenterRight => "CenterRight"
  | .Right => "Right"

def AirSwingLR.all : List AirSwingLR :=
  [.Unavailable, .Left, .CenterLeft, .Center, .CenterRight, .Right]

inductive AirSwingUD where
  | Auto | Up | UpMid | Mid | DownMid | Down | Swing
deriving DecidableEq, Repr

def AirSwingUD.name : AirSwingUD → String
  | .Auto => "Auto"
  | .Up => "Up"
  | .UpMid => "UpMid"
  | .Mid => "Mid"
  | .DownMid => "DownMid"
  | .Down => "Down"
  | .Swing => "Swing"

def AirSwingUD.all : List AirSwingUD :=
  [.Auto, .Up, .UpMid, .Mid, .DownMid, .Down, .Swing]

inductive StatusDataMode where
  | LIVE | CACHED
deriving DecidableEq, Repr

def StatusDataMode.name : StatusDataMode → String
  | .LIVE => "LIVE"
  | .CACHED => "CACHED"

/-- `aioaquarea.SpecialStatus`; `select.py` names members `ECO` and `COMFORT`
(`SpecialStatus[value]` for value in the options list, and `.name`). -/
inductive SpecialStatus where
  | ECO | COMFORT
deriving DecidableEq, Repr

def SpecialStatus.name : SpecialStatus → String
  | .ECO => "ECO"
  | .COMFORT => "COMFORT"

/-- Python `SpecialStatus[value]` lookup; `none` models the `KeyError` case. -/
def SpecialStatus.fromName : String → Option SpecialStatus
  | "ECO" => some .ECO
  | "COMFORT" => some .COMFORT
  | _ => none

/-- `aioaquarea.PowerfulTime`; only `.name` and `PowerfulTime[value]` are used. -/
inductive PowerfulTime where
  | OFF | MIN30 | MIN60 | MIN90
deriving DecidableEq, Repr

def PowerfulTime.name : PowerfulTime → String
  | .OFF => "OFF"
  | .MIN30 => "30MIN"
  | .MIN60 => "60MIN"
  | .MIN90 => "90MIN"

def PowerfulTime.fromName : String → Option PowerfulTime
  | "OFF" => some .OFF
  | "30MIN" => some .MIN30
  | "60MIN" => some .MIN60
  | "90MIN" => some .MIN90
  | _ => none

/-! ### Panasonic comfort-cloud device snapshot -/

structure PanasonicDeviceZone where
  id : Nat
  name : String
  /-- damper level, read by the zone damper getter -/
  level : ℤ
  temperature : Option ℚ
  has_temperature : Bool
deriving DecidableEq, Repr

structure PanasonicDeviceFeatures where
  auto_swing_ud : Bool
deriving DecidableEq, Repr

structure PanasonicDeviceInfo where
  status_data_mode : StatusDataMode
deriving DecidableEq, Repr

structure PanasonicDeviceParameters where
  inside_temperature : Option ℚ
  outside_temperature : Option ℚ
  horizontal_swing_mode : AirSwingLR
  vertical_swing_mode : AirSwingUD
  zones : List PanasonicDeviceZone
deriving DecidableEq, Repr

structure PanasonicDevice where
  parameters : PanasonicDeviceParameters
  has_zones : Bool
  has_horizontal_swing : Bool
  features : PanasonicDeviceFeatures
  last_update : ℤ
  timestamp : ℤ
  info : PanasonicDeviceInfo
deriving DecidableEq, Repr

/-! ### Change-request builder (comfort-cloud vendor class)

`ChangeRequestBuilder` is mutated in place by its staging methods and returns
itself; the pure embedding threads the builder value and keeps an `oid`
(object identity) so that "the same builder object" is expressible. -/

inductive ChangeRequest where
  | zoneDamper (zoneId : Nat) (value : ℤ)
  | horizontalSwing (value : String)
  | verticalSwing (value : String)
deriving DecidableEq, Repr

structure ChangeRequestBuilder where
  oid : Nat
  changes : List ChangeRequest
deriving DecidableEq, Repr

def ChangeRequestBuilder.set_zone_damper (b : ChangeRequestBuilder)
    (zoneId : Nat) (value : ℤ) : ChangeRequestBuilder :=
  { b with changes := b.changes ++ [ChangeRequest.zoneDamper zoneId value] }

def ChangeRequestBuilder.set_horizontal_swing (b : ChangeRequestBuilder)
    (value : String) : ChangeRequestBuilder :=
  { b with changes := b.changes ++ [ChangeRequest.horizontalSwing value] }

def ChangeRequestBuilder.set_vertical_swing (b : ChangeRequestBuilder)
    (value : String) : ChangeRequestBuilder :=
  { b with changes := b.changes ++ [ChangeRequest.verticalSwing value] }

/-- Modelled from the spec: `PanasonicDeviceCoordinator` (`coordinator.py` is
not in this slice). The spec gives its contract as `.device` (read-only
snapshot), `.get_change_request_builder()`, `.async_apply_changes(builder)`
and `.async_request_refresh()`; the fallible async calls are passed to the
operations as parameters. -/
structure PanasonicDeviceCoordinator where
  device : PanasonicDevice
  next_builder_oid : Nat
deriving DecidableEq, Repr

/-- Modelled from the spec: `get_change_request_builder()` hands out a fresh
builder for one change request. -/
def PanasonicDeviceCoordinator.get_change_request_builder
    (c : PanasonicDeviceCoordinator) : ChangeRequestBuilder :=
  { oid := c.next_builder_oid, changes := [] }

/-! ### Aquarea device snapshot -/

structure AquareaZone where
  name : String
  temperature : Option ℚ
  heat_target_temperature : Option ℚ
  cool_target_temperature : Option ℚ
  heat_max : Option ℚ
  heat_min : Option ℚ
  cool_max : Option ℚ
  cool_min : Option ℚ
deriving DecidableEq, Repr

structure AquareaDevice where
  /-- `device.zones`: dict from zone id to zone -/
  zones : List (Nat × AquareaZone)
  special_status : Option SpecialStatus
  powerful_time : PowerfulTime
  support_special_status : Bool
  temperature_outdoor : Option ℚ
  pump_duty : ℚ
deriving DecidableEq, Repr

/-- Python `device.zones.get(zone_id)`. -/
def AquareaDevice.zonesGet (d : AquareaDevice) (zoneId : Nat) : Option AquareaZone :=
  (d.zones.find? (fun p => p.1 == zoneId)).map (fun p => p.2)

/-- An async mutation method invoked on the Aquarea vendor device object. -/
inductive AquareaAction where
  | setSpecialStatus (s : Option SpecialStatus)
  | setPowerfulTime (p : PowerfulTime)
deriving DecidableEq, Repr

/-- Modelled from the spec: `AquareaDeviceCoordinator` (`coordinator.py` is not
in this slice), holding the live device snapshot. -/
structure AquareaDeviceCoordinator where
  device : AquareaDevice
deriving DecidableEq, Repr

/-- `aio_panasonic_comfort_cloud.PanasonicDeviceEnergy` snapshot, in the
fields the energy sensor getters read. -/
structure PanasonicDeviceEnergy where
  consumption : Option ℚ
  heating_consumption : Option ℚ
  cooling_consumption : Option ℚ
  current_power : Option ℚ
  cooling_power : Option ℚ
  heating_power : Option ℚ
deriving DecidableEq, Repr

/-- Modelled from the spec: `PanasonicDeviceEnergyCoordinator`
(`coordinator.py` is not in this slice), holding the live energy snapshot. -/
structure PanasonicDeviceEnergyCoordinator where
  energy : PanasonicDeviceEnergy
deriving DecidableEq, Repr

/-! ### Outward effects

Each entity operation returns, besides its new state, the list of outward
effects it performed, in execution order; `.error` results cut the operation
short at the raising call exactly as Python exception propagation does. -/

inductive Effect where
  /-- `coordinator.get_change_request_builder()` returned this builder -/
  | getBuilder (b : ChangeRequestBuilder)
  /-- the description's setter closure was invoked (staging on the builder) -/
  | descSetter
  /-- `coordinator.async_apply_changes(b)` was awaited -/
  | applyChanges (b : ChangeRequestBuilder)
  /-- `device.set_temperature(temp, zone_id)` was awaited -/
  | deviceSetTemperature (temp : ℤ) (zoneId : Nat)
  /-- an Aquarea vendor device mutation method was awaited -/
  | runAquarea (a : AquareaAction)
  /-- the optimistic displayed attribute was assigned -/
  | setDisplayedAttr
  /-- `self.async_write_ha_state()` -/
  | writeHaState
  /-- `coordinator.async_request_refresh()` was awaited -/
  | requestRefresh
deriving DecidableEq, Repr

/-! ### number.py: descriptions and entities -/

/-- `PanasonicNumberEntityDescription` (frozen dataclass extending
`NumberEntityDescription`), with the metadata fields `number.py` sets. -/
structure PanasonicNumberEntityDescription where
  key : String
  translation_key : String
  name : String
  icon : String
  native_unit_of_measurement : String
  native_max_value : ℚ
  native_min_value : ℚ
  native_step : ℚ
  mode : String
  get_value : PanasonicDevice → ℤ
  «set_value» : ChangeRequestBuilder → ℤ → ChangeRequestBuilder

/-- `create_zone_damper_description(zone)`: the getter and setter close over
the `zone` object captured at setup time; the getter ignores its `device`
argument and reads `zone.level`. -/
def create_zone_damper_description (zone : PanasonicDeviceZone) :
    PanasonicNumberEntityDescription :=
  { key := "zone-" ++ toString zone.id ++ "-damper"
    translation_key := "zone-" ++ toString zone.id ++ "-damper"
    name := zone.name ++ " Damper Position"
    icon := "mdi:valve"
    native_unit_of_measurement := "%"
    native_max_value := 100
    native_min_value := 0
    native_step := 10
    mode := "slider"
    get_value := fun _device => zone.level
    «set_value» := fun builder value => builder.set_zone_damper zone.id value }

/-- `PanasonicNumberEntity`: coordinator reference, description, and the
cached display attribute `_attr_native_value` (`none` = never set). -/
structure PanasonicNumberEntity where
  coordinator : PanasonicDeviceCoordinator
  entity_description : PanasonicNumberEntityDescription
  attr_native_value : Option ℤ

/-- `PanasonicNumberEntity._async_update_attrs`. -/
def PanasonicNumberEntity.update_attrs (e : PanasonicNumberEntity) :
    PanasonicNumberEntity :=
  { e with
      attr_native_value :=
        some (e.entity_description.get_value e.coordinator.device) }

/-- Modelled from the spec: the base `PanasonicDataEntity` (`base.py` is not in
this slice) registers a coordinator refresh callback that recomputes the cached
display attributes from the new device snapshot via `_async_update_attrs`. -/
def PanasonicNumberEntity.refresh (e : PanasonicNumberEntity)
    (snapshot : PanasonicDevice) : PanasonicNumberEntity :=
  PanasonicNumberEntity.update_attrs
    { e with coordinator := { e.coordinator with device := snapshot } }

/-- `PanasonicNumberEntity.async_set_native_value(value)`:
`value = int(value)`; stage the change on a fresh builder via the
description's setter (the builder is mutated in place and also returned);
await `async_apply_changes`; then assign the optimistic attribute and write
host state. `applyChanges` is the coordinator's fallible async call. -/
def PanasonicNumberEntity.set_native_value
    (applyChanges : ChangeRequestBuilder → Except PyErr Unit)
    (e : PanasonicNumberEntity) (value : ℚ) :
    PanasonicNumberEntity × List Effect × Except PyErr Unit :=
  let v : ℤ := pyInt value
  let builder := e.coordinator.get_change_request_builder
  let builder := e.entity_description.«set_value» builder v
  match applyChanges builder with
  | .error err =>
      (e, [Effect.getBuilder e.coordinator.get_change_request_builder,
           Effect.descSetter, Effect.applyChanges builder], .error err)
  | .ok _ =>
      ({ e with attr_native_value := some v },
       [Effect.getBuilder e.coordinator.get_change_request_builder,
        Effect.descSetter, Effect.applyChanges builder,
        Effect.setDisplayedAttr, Effect.writeHaState], .ok ())

/-- `AquareaNumberEntityDescription` (frozen dataclass): metadata plus the
zone id; target-temperature entities have no getter closure. -/
structure AquareaNumberEntityDescription where
  key : String
  translation_key : String
  name : String
  icon : String
  device_class : String
  native_unit_of_measurement : String
  native_max_value : ℚ
  native_min_value : ℚ
  native_step : ℚ
  mode : String
  zone_id : Nat
deriving DecidableEq, Repr

structure AquareaNumberEntity where
  coordinator : AquareaDeviceCoordinator
  entity_description : AquareaNumberEntityDescription
  attr_native_value : Option ℚ
deriving DecidableEq, Repr

/-- `AquareaNumberEntity._async_update_attrs`: look the zone up in the
snapshot; inside each key branch fall back from the target temperature to the
current temperature. When the zone is absent (or the key matches neither
branch) nothing is assigned. -/
def AquareaNumberEntity.update_attrs (e : AquareaNumberEntity) :
    AquareaNumberEntity :=
  { e with
      attr_native_value :=
        match e.coordinator.device.zonesGet e.entity_description.zone_id with
        | none => e.attr_native_value
        | some zone =>
            if pyIn "heat-target" e.entity_description.key then
              match zone.heat_target_temperature with
              | some t => some t
              | none => zone.temperature
            else if pyIn "cool-target" e.entity_description.key then
              match zone.cool_target_temperature with
              | some t => some t
              | none => zone.temperature
            else e.attr_native_value }

/-- Modelled from the spec: coordinator refresh callback for the Aquarea base
entity (`base.py` is not in this slice); installs the new snapshot and calls
`_async_update_attrs`. -/
def AquareaNumberEntity.refresh (e : AquareaNumberEntity)
    (snapshot : AquareaDevice) : AquareaNumberEntity :=
  AquareaNumberEntity.update_attrs { e with coordinator := { device := snapshot } }

/-- `AquareaNumberEntity.async_set_native_value(value)`:
`temperature = int(value)`; in the `"heat-target"`/`"cool-target"` key branch
await `device.set_temperature(temperature, zone_id)` (the `original_mode`
reads in the source only feed a debug log); then assign the optimistic
attribute, write host state and await `async_request_refresh`. -/
def AquareaNumberEntity.set_native_value
    (setTemperature : ℤ → Nat → Except PyErr Unit)
    (requestRefresh : Except PyErr Unit)
    (e : AquareaNumberEntity) (value : ℚ) :
    AquareaNumberEntity × List Effect × Except PyErr Unit :=
  let zone_id := e.entity_description.zone_id
  let temperature : ℤ := pyInt value
  let setStep : List Effect × Except PyErr Unit :=
    if pyIn "heat-target" e.entity_description.key then
      ([Effect.deviceSetTemperature temperature zone_id],
       setTemperature temperature zone_id)
    else if pyIn "cool-target" e.entity_description.key then
      ([Effect.deviceSetTemperature temperature zone_id],
       setTemperature temperature zone_id)
    else ([], .ok ())
  match setStep with
  | (tr, .error err) => (e, tr, .error err)
  | (tr, .ok _) =>
      ({ e with attr_native_value := some ((temperature : ℚ)) },
       tr ++ [Effect.setDisplayedAttr, Effect.writeHaState, Effect.requestRefresh],
       requestRefresh)

/-! ### select.py: descriptions and entities -/

/-- Modelled from the spec: key constants from `const.py` (not in this slice);
they are opaque stable identifiers. -/
def SELECT_HORIZONTAL_SWING : String := "horizontal_swing"

/-- Modelled from the spec: key constant from `const.py` (not in this slice). -/
def SELECT_VERTICAL_SWING : String := "vertical_swing"

/-- `PanasonicSelectEntityDescription` (frozen dataclass extending
`SelectEntityDescription`); `options` and `get_options` default to `None`. -/
structure PanasonicSelectEntityDescription where
  key : String
  translation_key : String
  icon : String
  name : String
  options : Option (List String) := none
  «set_option» : ChangeRequestBuilder → String → ChangeRequestBuilder
  get_current_option : PanasonicDevice → String
  is_available : PanasonicDevice → Bool
  get_options : Option (PanasonicDevice → List String) := none

def HORIZONTAL_SWING_DESCRIPTION : PanasonicSelectEntityDescription :=
  { key := SELECT_HORIZONTAL_SWING
    translation_key := SELECT_HORIZONTAL_SWING
    icon := "mdi:swap-horizontal"
    name := "Horizontal Swing Mode"
    options := some ((AirSwingLR.all.filter
      (fun opt => opt != AirSwingLR.Unavailable)).map AirSwingLR.name)
    «set_option» := fun builder new_value => builder.set_horizontal_swing new_value
    get_current_option := fun device => device.parameters.horizontal_swing_mode.name
    is_available := fun device => device.has_horizontal_swing }

def VERTICAL_SWING_DESCRIPTION : PanasonicSelectEntityDescription :=
  { key := SELECT_VERTICAL_SWING
    translation_key := SELECT_VERTICAL_SWING
    icon := "mdi:swap-vertical"
    name := "Vertical Swing Mode"
    get_options := some (fun device => (AirSwingUD.all.filter
      (fun opt => opt != AirSwingUD.Swing || device.features.auto_swing_ud)).map
        AirSwingUD.name)
    «set_option» := fun builder new_value => builder.set_vertical_swing new_value
    get_current_option := fun device => device.parameters.vertical_swing_mode.name
    is_available := fun _device => true }

/-- `AquareaSelectEntityDescription` (frozen dataclass): the setter runs
directly against the vendor device. Evaluating it either names the async
vendor method to await (`AquareaAction`) or raises (`KeyError` from the
`Enum[value]` lookup inside the closure). -/
structure AquareaSelectEntityDescription where
  key : String
  translation_key : String
  name : String
  icon : String
  options : Option (List String) := none
  get_current_option : AquareaDevice → String
  «set_option» : AquareaDevice → String → Except PyErr AquareaAction
  is_available : AquareaDevice → Bool

def AQUAREA_SPECIAL_STATUS_DESCRIPTION : AquareaSelectEntityDescription :=
  { key := "special_status"
    translation_key := "special_status"
    name := "Special Status"
    icon := "mdi:thermostat"
    options := some ["NORMAL", "ECO", "COMFORT"]
    get_current_option := fun device =>
      match device.special_status with
      | some s => s.name
      | none => "NORMAL"
    «set_option» := fun _device value =>
      if value != "NORMAL" then
        match SpecialStatus.fromName value with
        | some s => Except.ok (AquareaAction.setSpecialStatus (some s))
        | none => Except.error PyErr.keyError
      else Except.ok (AquareaAction.setSpecialStatus none)
    is_available := fun device => device.support_special_status }

def AQUAREA_POWERFUL_TIME_DESCRIPTION : AquareaSelectEntityDescription :=
  { key := "powerful_time"
    translation_key := "powerful_time"
    name := "Powerful Mode"
    icon := "mdi:timer"
    options := some ["OFF", "30MIN", "60MIN", "90MIN"]
    get_current_option := fun device => device.powerful_time.name
    «set_option» := fun _device value =>
      match PowerfulTime.fromName value with
      | some p => Except.ok (AquareaAction.setPowerfulTime p)
      | none => Except.error PyErr.keyError
    is_available := fun _device => true }

structure PanasonicSelectEntity where
  coordinator : PanasonicDeviceCoordinator
  entity_description : PanasonicSelectEntityDescription
  /-- the displayed current option (`_attr_current_option`) -/
  attr_current_option : Option String

/-- `PanasonicSelectEntity.available` property. -/
def PanasonicSelectEntity.available (e : PanasonicSelectEntity) : Bool :=
  e.entity_description.is_available e.coordinator.device

/-- `PanasonicSelectEntity._async_update_attrs`: assigns the displayed current
option from the description's getter (the source writes `self.current_option`,
the displayed option attribute). -/
def PanasonicSelectEntity.update_attrs (e : PanasonicSelectEntity) :
    PanasonicSelectEntity :=
  { e with
      attr_current_option :=
        some (e.entity_description.get_current_option e.coordinator.device) }

/-- Modelled from the spec: coordinator refresh callback of the base
`PanasonicDataEntity` (`base.py` is not in this slice). -/
def PanasonicSelectEntity.refresh (e : PanasonicSelectEntity)
    (snapshot : PanasonicDevice) : PanasonicSelectEntity :=
  PanasonicSelectEntity.update_attrs
    { e with coordinator := { e.coordinator with device := snapshot } }

/-- `PanasonicSelectEntity.async_select_option(option)`: stage on a fresh
builder, await `async_apply_changes`, then assign the optimistic option and
write host state. -/
def PanasonicSelectEntity.select_option
    (applyChanges : ChangeRequestBuilder → Except PyErr Unit)
    (e : PanasonicSelectEntity) (option : String) :
    PanasonicSelectEntity × List Effect × Except PyErr Unit :=
  let builder := e.coordinator.get_change_request_builder
  let builder := e.entity_description.«set_option» builder option
  match applyChanges builder with
  | .error err =>
      (e, [Effect.getBuilder e.coordinator.get_change_request_builder,
           Effect.descSetter, Effect.applyChanges builder], .error err)
  | .ok _ =>
      ({ e with attr_current_option := some option },
       [Effect.getBuilder e.coordinator.get_change_request_builder,
        Effect.descSetter, Effect.applyChanges builder,
        Effect.setDisplayedAttr, Effect.writeHaState], .ok ())

structure AquareaSelectEntity where
  coordinator : AquareaDeviceCoordinator
  entity_description : AquareaSelectEntityDescription
  attr_current_option : Option String

/-- `AquareaSelectEntity.available` property. -/
def AquareaSelectEntity.available (e : AquareaSelectEntity) : Bool :=
  e.entity_description.is_available e.coordinator.device

/-- `AquareaSelectEntity._async_update_attrs`. -/
def AquareaSelectEntity.update_attrs (e : AquareaSelectEntity) :
    AquareaSelectEntity :=
  { e with
      attr_current_option :=
        some (e.entity_description.get_current_option e.coordinator.device) }

/-- Modelled from the spec: coordinator refresh callback of the base
`AquareaDataEntity` (`base.py` is not in this slice). -/
def AquareaSelectEntity.refresh (e : AquareaSelectEntity)
    (snapshot : AquareaDevice) : AquareaSelectEntity :=
  AquareaSelectEntity.update_attrs { e with coordinator := { device := snapshot } }

/-- `AquareaSelectEntity.async_select_option(option)`: await the description's
setter on the vendor device, then assign the optimistic option, write host
state and await `async_request_refresh`. -/
def AquareaSelectEntity.select_option
    (runAction : AquareaAction → Except PyErr Unit)
    (requestRefresh : Except PyErr Unit)
    (e : AquareaSelectEntity) (option : String) :
    AquareaSelectEntity × List Effect × Except PyErr Unit :=
  match e.entity_description.«set_option» e.coordinator.device option with
  | .error err => (e, [], .error err)
  | .ok act =>
      match runAction act with
      | .error err => (e, [Effect.runAquarea act], .error err)
      | .ok _ =>
          ({ e with attr_current_option := some option },
           [Effect.runAquarea act, Effect.setDisplayedAttr,
            Effect.writeHaState, Effect.requestRefresh], requestRefresh)

/-! ### sensor.py: descriptions and entities -/

/-- `PanasonicSensorEntityDescription` (frozen dataclass extending
`SensorEntityDescription`); `get_state` and `is_available` default to `None`. -/
structure PanasonicSensorEntityDescription where
  key : String
  translation_key : String
  name : String
  icon : Option String := none
  device_class : Option String := none
  state_class : Option String := none
  native_unit_of_measurement : Option String := none
  entity_category : Option String := none
  options : Option (List String) := none
  entity_registry_enabled_default : Bool := true
  get_state : Option (PanasonicDevice → PyValue) := none
  is_available : Option (PanasonicDevice → Bool) := none

/-- `AquareaSensorEntityDescription` (frozen dataclass). -/
structure AquareaSensorEntityDescription where
  key : String
  translation_key : String
  name : String
  icon : Option String := none
  device_class : Option String := none
  state_class : Option String := none
  native_unit_of_measurement : Option String := none
  entity_category : Option String := none
  entity_registry_enabled_default : Bool := true
  get_state : Option (AquareaDevice → PyValue) := none
  is_available : Option (AquareaDevice → Bool) := none

/-- `PanasonicEnergySensorEntityDescription` (frozen dataclass). -/
structure PanasonicEnergySensorEntityDescription where
  key : String
  translation_key : String
  name : String
  icon : Option String := none
  device_class : Option String := none
  state_class : Option String := none
  native_unit_of_measurement : Option String := none
  get_state : Option (PanasonicDeviceEnergy → PyValue) := none

def INSIDE_TEMPERATURE_DESCRIPTION : PanasonicSensorEntityDescription :=
  { key := "inside_temperature"
    translation_key := "inside_temperature"
    name := "Inside Temperature"
    icon := some "mdi:thermometer"
    device_class := some "temperature"
    state_class := some "measurement"
    native_unit_of_measurement := some "°C"
    get_state := some (fun device => optRat device.parameters.inside_temperature)
    is_available := some (fun device =>
      device.parameters.inside_temperature != Option.none) }

def OUTSIDE_TEMPERATURE_DESCRIPTION : PanasonicSensorEntityDescription :=
  { key := "outside_temperature"
    translation_key := "outside_temperature"
    name := "Outside Temperature"
    icon := some "mdi:thermometer"
    device_class := some "temperature"
    state_class := some "measurement"
    native_unit_of_measurement := some "°C"
    get_state := some (fun device => optRat device.parameters.outside_temperature)
    is_available := some (fun device =>
      device.parameters.outside_temperature != Option.none) }

def DATA_MODE_DESCRIPTION : PanasonicSensorEntityDescription :=
  { key := "status_data_mode"
    translation_key := "status_data_mode"
    name := "Data Mode"
    options := some [StatusDataMode.name .LIVE, StatusDataMode.name .CACHED]
    device_class := some "enum"
    entity_category := some "diagnostic"
    get_state := some (fun device => PyValue.str device.info.status_data_mode.name)
    is_available := some (fun _device => true)
    entity_registry_enabled_default := true }

/-- `create_zone_temperature_description(zone)`: getter and availability close
over the `zone` object captured at setup time, ignoring the `device`
argument. -/
def create_zone_temperature_description (zone : PanasonicDeviceZone) :
    PanasonicSensorEntityDescription :=
  { key := "zone-" ++ toString zone.id ++ "-temperature"
    translation_key := "zone-" ++ toString zone.id ++ "-temperature"
    name := zone.name ++ " Temperature"
    icon := some "mdi:thermometer"
    device_class := some "temperature"
    state_class := some "measurement"
    native_unit_of_measurement := some "°C"
    get_state := some (fun _device => optRat zone.temperature)
    is_available := some (fun _device => zone.has_temperature) }

def AQUAREA_OUTSIDE_TEMPERATURE_DESCRIPTION : AquareaSensorEntityDescription :=
  { key := "outside_temperature"
    translation_key := "outside_temperature"
    name := "Outside Temperature"
    icon := some "mdi:thermometer"
    device_class := some "temperature"
    state_class := some "measurement"
    native_unit_of_measurement := some "°C"
    get_state := some (fun device => optRat device.temperature_outdoor)
    is_available := some (fun device => device.temperature_outdoor != Option.none) }

def AQUAREA_PUMP_DUTY_DESCRIPTION : AquareaSensorEntityDescription :=
  { key := "pump_duty"
    translation_key := "pump_duty"
    name := "Pump Duty"
    icon := some "mdi:speedometer"
    device_class := some "power_factor"
    state_class := some "measurement"
    native_unit_of_measurement := some "%"
    get_state := some (fun device => PyValue.int (pyInt device.pump_duty))
    is_available := some (fun _device => true) }

def DAILY_ENERGY_DESCRIPTION : PanasonicEnergySensorEntityDescription :=
  { key := "daily_energy_sensor"
    translation_key := "daily_energy_sensor"
    name := "Daily Energy"
    icon := some "mdi:flash"
    device_class := some "energy"
    state_class := some "total_increasing"
    native_unit_of_measurement := some "kWh"
    get_state := some (fun energy => optRat energy.consumption) }

structure PanasonicSensorEntity where
  coordinator : PanasonicDeviceCoordinator
  entity_description : PanasonicSensorEntityDescription
  /-- `_attr_available`; the host framework default is `True` -/
  attr_available : Bool
  attr_native_value : PyValue

/-- `PanasonicSensorEntity.available` property: `False` when the description
has no availability closure, otherwise the closure on the snapshot. -/
def PanasonicSensorEntity.available (e : PanasonicSensorEntity) : Bool :=
  match e.entity_description.is_available with
  | none => false
  | some f => f e.coordinator.device

/-- `PanasonicSensorEntity._async_update_attrs`: each closure is applied only
when present (Python truthiness of the closure field); the two guarded
assignments touch disjoint fields and read only the unmodified snapshot, so
they are rendered as one simultaneous record update. -/
def PanasonicSensorEntity.update_attrs (e : PanasonicSensorEntity) :
    PanasonicSensorEntity :=
  { e with
      attr_available :=
        match e.entity_description.is_available with
        | some f => f e.coordinator.device
        | none => e.attr_available
      attr_native_value :=
        match e.entity_description.get_state with
        | some g => g e.coordinator.device
        | none => e.attr_native_value }

/-- Modelled from the spec: coordinator refresh callback of the base
`PanasonicDataEntity` (`base.py` is not in this slice). -/
def PanasonicSensorEntity.refresh (e : PanasonicSensorEntity)
    (snapshot : PanasonicDevice) : PanasonicSensorEntity :=
  PanasonicSensorEntity.update_attrs
    { e with coordinator := { e.coordinator with device := snapshot } }

structure AquareaSensorEntity where
  coordinator : AquareaDeviceCoordinator
  entity_description : AquareaSensorEntityDescription
  attr_available : Bool
  attr_native_value : PyValue

/-- `AquareaSensorEntity.available` property:
`value = is_available(device) if is_available else None`;
`return value if value is not None else False`. -/
def AquareaSensorEntity.available (e : AquareaSensorEntity) : Bool :=
  let value : Option Bool :=
    match e.entity_description.is_available with
    | some f => some (f e.coordinator.device)
    | none => none
  match value with
  | some v => v
  | none => false

/-- `AquareaSensorEntity._async_update_attrs`: same guarded-assignment shape
as the Panasonic sensor, rendered as one simultaneous record update. -/
def AquareaSensorEntity.update_attrs (e : AquareaSensorEntity) :
    AquareaSensorEntity :=
  { e with
      attr_available :=
        match e.entity_description.is_available with
        | some f => f e.coordinator.device
        | none => e.attr_available
      attr_native_value :=
        match e.entity_description.get_state with
        | some g => g e.coordinator.device
        | none => e.attr_native_value }

/-- Modelled from the spec: coordinator refresh callback of the base
`AquareaDataEntity` (`base.py` is not in this slice). -/
def AquareaSensorEntity.refresh (e : AquareaSensorEntity)
    (snapshot : AquareaDevice) : AquareaSensorEntity :=
  AquareaSensorEntity.update_attrs { e with coordinator := { device := snapshot } }

structure PanasonicEnergySensorEntity where
  coordinator : PanasonicDeviceEnergyCoordinator
  entity_description : PanasonicEnergySensorEntityDescription
  attr_available : Bool
  attr_native_value : PyValue

/-- `PanasonicEnergySensorEntity.available` property: returns the cached
`_attr_available`. -/
def PanasonicEnergySensorEntity.available (e : PanasonicEnergySensorEntity) : Bool :=
  e.attr_available

/-- `PanasonicEnergySensorEntity._async_update_attrs` calls `get_state`
unconditionally; a description whose `get_state` is `None` raises
`TypeError` (calling `None`). -/
def PanasonicEnergySensorEntity.update_attrs (e : PanasonicEnergySensorEntity) :
    PanasonicEnergySensorEntity × Except PyErr Unit :=
  match e.entity_description.get_state with
  | none => (e, .error .typeError)
  | some g =>
      let value := g e.coordinator.energy
      ({ e with
          attr_available := value != PyValue.pynone
          attr_native_value := value }, .ok ())

/-! ### Write-sequencing predicate

The uniform write protocol the spec describes: the optimistic displayed-value
assignment happens before the coordinator applies/refreshes the change. -/

/-- Steps that apply the change at the coordinator or await a refresh of it. -/
def applyOrRefreshStep : Effect → Bool
  | .applyChanges _ => true
  | .requestRefresh => true
  | _ => false

/-- In the trace, every optimistic display assignment precedes every
apply/refresh step. -/
def displayedBeforeApply (tr : List Effect) : Prop :=
  ∀ i j : Fin tr.length, tr.get i = Effect.setDisplayedAttr →
    applyOrRefreshStep (tr.get j) = true → (i : ℕ) < (j : ℕ)

instance (tr : List Effect) : Decidable (displayedBeforeApply tr) :=
  inferInstanceAs (Decidable (∀ _ _, _ → _ → _))

/-! ### Concrete collaborators and fixtures -/

/-- `async_apply_changes` succeeding. -/
def applyChangesOk : ChangeRequestBuilder → Except PyErr Unit := fun _ => .ok ()

/-- `async_apply_changes` raising a vendor API error. -/
def applyChangesFail : ChangeRequestBuilder → Except PyErr Unit :=
  fun _ => .error (.vendorError 7)

/-- `device.set_temperature` succeeding. -/
def setTemperatureOk : ℤ → Nat → Except PyErr Unit := fun _ _ => .ok ()

/-- `device.set_temperature` raising. -/
def setTemperatureFail : ℤ → Nat → Except PyErr Unit :=
  fun _ _ => .error (.vendorError 3)

/-- Aquarea vendor mutation method succeeding. -/
def runActionOk : AquareaAction → Except PyErr Unit := fun _ => .ok ()

/-- Aquarea vendor mutation method raising. -/
def runActionFail : AquareaAction → Except PyErr Unit :=
  fun _ => .error (.vendorError 5)

def sampleZone : PanasonicDeviceZone :=
  { id := 1, name := "Living Room", level := 30
    temperature := some 21, has_temperature := true }

def sampleZoneAlt : PanasonicDeviceZone :=
  { id := 1, name := "Living Room", level := 70
    temperature := some 25, has_temperature := true }

def sampleDevice : PanasonicDevice :=
  { parameters :=
      { inside_temperature := some 22
        outside_temperature := some 9
        horizontal_swing_mode := .Center
        vertical_swing_mode := .Mid
        zones := [sampleZone] }
    has_zones := true
    has_horizontal_swing := true
    features := { auto_swing_ud := true }
    last_update := 100
    timestamp := 90
    info := { status_data_mode := .LIVE } }

def sampleCoordinator : PanasonicDeviceCoordinator :=
  { device := sampleDevice, next_builder_oid := 42 }

def sampleNumberEntity : PanasonicNumberEntity :=
  { coordinator := sampleCoordinator
    entity_description := create_zone_damper_description sampleZone
    attr_native_value := none }

def sampleSelectEntity : PanasonicSelectEntity :=
  { coordinator := sampleCoordinator
    entity_description := HORIZONTAL_SWING_DESCRIPTION
    attr_current_option := none }

def sampleSensorEntity : PanasonicSensorEntity :=
  { coordinator := sampleCoordinator
    entity_description := INSIDE_TEMPERATURE_DESCRIPTION
    attr_available := true
    attr_native_value := .pynone }

/-- A sensor description that sets neither closure (both default to `None`). -/
def bareSensorDescription : PanasonicSensorEntityDescription :=
  { key := "bare", translation_key := "bare", name := "Bare" }

/-- An Aquarea sensor description with both closures left at `None`. -/
def bareAquareaSensorDescription : AquareaSensorEntityDescription :=
  { key := "bare", translation_key := "bare", name := "Bare" }

def sampleAquareaZone : AquareaZone :=
  { name := "Zone 1", temperature := some 20
    heat_target_temperature := some 22, cool_target_temperature := none
    heat_max := some 30, heat_min := some 10, cool_max := none, cool_min := none }

def sampleAquareaDevice : AquareaDevice :=
  { zones := [(1, sampleAquareaZone)]
    special_status := none
    powerful_time := .OFF
    support_special_status := true
    temperature_outdoor := some 5
    pump_duty := 64 }

/-- An Aquarea snapshot with no zones (zone dropped from the API answer). -/
def zonelessAquareaDevice : AquareaDevice :=
  { zones := []
    special_status := none
    powerful_time := .OFF
    support_special_status := true
    temperature_outdoor := some 5
    pump_duty := 64 }

def sampleAquareaCoordinator : AquareaDeviceCoordinator :=
  { device := sampleAquareaDevice }

/-- The heat-target description `async_setup_entry` builds for zone 1. -/
def aquareaHeatTargetDescription : AquareaNumberEntityDescription :=
  { key := "zone-1-heat-target"
    translation_key := "zone-1-heat-target"
    name := "Zone 1 Heat Target"
    icon := "mdi:thermometer"
    device_class := "temperature"
    native_unit_of_measurement := "°C"
    native_max_value := 30
    native_min_value := 10
    native_step := 1
    mode := "box"
    zone_id := 1 }

def sampleAquareaNumberEntity : AquareaNumberEntity :=
  { coordinator := sampleAquareaCoordinator
    entity_description := aquareaHeatTargetDescription
    attr_native_value := none }

/-- The cool-target description `async_setup_entry` builds for a zone with
cooling support. -/
def aquareaCoolTargetDescription : AquareaNumberEntityDescription :=
  { key := "zone-1-cool-target"
    translation_key := "zone-1-cool-target"
    name := "Zone 1 Cool Target"
    icon := "mdi:thermometer"
    device_class := "temperature"
    native_unit_of_measurement := "°C"
    native_max_value := 30
    native_min_value := 16
    native_step := 1
    mode := "box"
    zone_id := 1 }

def sampleAquareaCoolNumberEntity : AquareaNumberEntity :=
  { coordinator := sampleAquareaCoordinator
    entity_description := aquareaCoolTargetDescription
    attr_native_value := none }

def sampleAquareaSelectEntity : AquareaSelectEntity :=
  { coordinator := sampleAquareaCoordinator
    entity_description := AQUAREA_SPECIAL_STATUS_DESCRIPTION
    attr_current_option := none }

def sampleAquareaSensorEntity : AquareaSensorEntity :=
  { coordinator := sampleAquareaCoordinator
    entity_description := AQUAREA_OUTSIDE_TEMPERATURE_DESCRIPTION
    attr_available := true
    attr_native_value := .pynone }

/-! ## Verification -/

/-- `pyInt` agrees with the floor/ceil view of Python `int()` truncation
toward zero. -/
theorem pyInt_eq_trunc (q : ℚ) : pyInt q = if 0 ≤ q then ⌊q⌋ else ⌈q⌉ := by
  unfold pyInt
  rcases le_or_lt 0 q with h | h
  · rw [if_pos h, Rat.floor_def,
      Int.tdiv_eq_ediv (Rat.num_nonneg.mpr h) (Int.natCast_nonneg _)]
  · rw [if_neg (not_le.mpr h)]
    have hnum : 0 ≤ -q.num := by
      have := Rat.num_neg.mpr h
      omega
    have h2 : (-q.num).tdiv q.den = (-q.num) / q.den :=
      Int.tdiv_eq_ediv hnum (Int.natCast_nonneg _)
    have h3 : (⌊-q⌋ : ℤ) = (-q).num / (-q).den := Rat.floor_def
    have h4 : (-q).num = -q.num := by simp
    have h5 : ((-q).den : ℤ) = (q.den : ℤ) := by simp
    have h6 : ⌈q⌉ = -⌊-q⌋ := by
      rw [Int.floor_neg]
      omega
    rw [h6, h3, h4, h5, ← h2, Int.neg_tdiv]
    omega

/-- C6 counterexample: the zone damper getter is not a function of the device
snapshot alone. Two damper descriptions built over captured zones with
different levels return different values on the very same device snapshot
(`sampleDevice`), so the getter reads state other than its argument. -/
theorem C6_counterexample :
    ¬ (∀ (z₁ z₂ : PanasonicDeviceZone) (d : PanasonicDevice),
        (create_zone_damper_description z₁).get_value d =
          (create_zone_damper_description z₂).get_value d) :=
  fun h => absurd (h sampleZone sampleZoneAlt sampleDevice) (by decide)

/-- C6 amended: the zone damper and zone temperature getters are deterministic
closures over the zone object captured at setup time; they ignore the device
snapshot argument entirely and read the captured zone's field. -/
theorem C6_zone_getters_read_captured_zone :
    (∀ (z : PanasonicDeviceZone) (d : PanasonicDevice),
        (create_zone_damper_description z).get_value d = z.level) ∧
    (∀ (z : PanasonicDeviceZone),
        (create_zone_temperature_description z).get_state =
          some (fun _device => optRat z.temperature)) :=
  ⟨fun _ _ => rfl, fun _ => rfl⟩

/-- C9: the Aquarea special-status mapping round-trips. For each option in
the options list, if the device's `special_status` field holds exactly the
value the description's setter submits for that option (`None` for
`"NORMAL"`, the looked-up enum member otherwise), then the description's
getter reports that option. -/
theorem C9_special_status_roundtrip :
    ∀ (d : AquareaDevice) (opt : String) (st : Option SpecialStatus),
      opt ∈ (["NORMAL", "ECO", "COMFORT"] : List String) →
      AQUAREA_SPECIAL_STATUS_DESCRIPTION.«set_option» d opt =
        Except.ok (AquareaAction.setSpecialStatus st) →
      d.special_status = st →
      AQUAREA_SPECIAL_STATUS_DESCRIPTION.get_current_option d = opt := by
  intro d opt st hmem hset hst
  have hget : AQUAREA_SPECIAL_STATUS_DESCRIPTION.get_current_option d =
      (match d.special_status with
       | some s => s.name
       | none => "NORMAL") := rfl
  fin_cases hmem
  · have h1 : AquareaAction.setSpecialStatus none =
        AquareaAction.setSpecialStatus st := Except.ok.inj hset
    injection h1 with h2
    rw [hget, hst, ← h2]
  · have h1 : AquareaAction.setSpecialStatus (some SpecialStatus.ECO) =
        AquareaAction.setSpecialStatus st := Except.ok.inj hset
    injection h1 with h2
    rw [hget, hst, ← h2]
    rfl
  · have h1 : AquareaAction.setSpecialStatus (some SpecialStatus.COMFORT) =
        AquareaAction.setSpecialStatus st := Except.ok.inj hset
    injection h1 with h2
    rw [hget, hst, ← h2]
    rfl

/-- C9 witness: the round-trip at the concrete sample device, for the
`"ECO"` option. -/
theorem C9_special_status_roundtrip_witness :
    AQUAREA_SPECIAL_STATUS_DESCRIPTION.get_current_option
      { sampleAquareaDevice with special_status := some SpecialStatus.ECO } = "ECO" :=
  C9_special_status_roundtrip
    { sampleAquareaDevice with special_status := some SpecialStatus.ECO }
    "ECO" (some SpecialStatus.ECO) (by decide) rfl rfl

/-- C10: a sensor entity whose description carries no availability closure
(`is_available = None`) reports `available = False` regardless of the device
snapshot, on both the Panasonic and the Aquarea sensor class. -/
theorem C10_unavailable_without_closure :
    (∀ (e : PanasonicSensorEntity), e.entity_description.is_available = none →
        e.available = false) ∧
    (∀ (e : AquareaSensorEntity), e.entity_description.is_available = none →
        e.available = false) := by
  constructor
  · intro e h
    unfold PanasonicSensorEntity.available
    rw [h]
  · intro e h
    unfold AquareaSensorEntity.available
    rw [h]

/-- C10 witness: concrete sensor entities whose descriptions leave both
closures at their `None` defaults are unavailable. -/
theorem C10_unavailable_without_closure_witness :
    PanasonicSensorEntity.available
      { coordinator := sampleCoordinator
        entity_description := bareSensorDescription
        attr_available := true
        attr_native_value := .pynone } = false ∧
    AquareaSensorEntity.available
      { coordinator := sampleAquareaCoordinator
        entity_description := bareAquareaSensorDescription
        attr_available := true
        attr_native_value := .pynone } = false :=
  ⟨C10_unavailable_without_closure.1 _ rfl,
   C10_unavailable_without_closure.2 _ rfl⟩

/-- C1 counterexample: writing the float 2.5 to the Panasonic zone damper
number entity displays 2, not the value the user wrote, so "after a
user-initiated write the displayed value equals the value the user wrote"
fails as stated. -/
theorem C1_counterexample :
    ((PanasonicNumberEntity.set_native_value applyChangesOk sampleNumberEntity
        (mkRat 5 2)).1.attr_native_value.map (fun n => ((n : ℤ) : ℚ))) ≠
      some (mkRat 5 2) := by decide

/-- C1 amended: after a coordinator refresh the displayed value is the
description's getter applied to the new snapshot; after a user write whose
delegated vendor/coordinator call succeeded, the displayed value is the
written option for select entities and the integer truncation `int(v)` of the
written value for number entities, until the next refresh overwrites it. -/
theorem C1_display_projection :
    (∀ (e : PanasonicNumberEntity) (d : PanasonicDevice),
        (e.refresh d).attr_native_value =
          some (e.entity_description.get_value d)) ∧
    (∀ (e : PanasonicSelectEntity) (d : PanasonicDevice),
        (e.refresh d).attr_current_option =
          some (e.entity_description.get_current_option d)) ∧
    (∀ (e : AquareaSelectEntity) (d : AquareaDevice),
        (e.refresh d).attr_current_option =
          some (e.entity_description.get_current_option d)) ∧
    (∀ (e : PanasonicSensorEntity) (d : PanasonicDevice)
        (g : PanasonicDevice → PyValue),
        e.entity_description.get_state = some g →
        (e.refresh d).attr_native_value = g d) ∧
    (∀ (applyChanges : ChangeRequestBuilder → Except PyErr Unit)
        (e : PanasonicNumberEntity) (v : ℚ),
        applyChanges (e.entity_description.«set_value»
            e.coordinator.get_change_request_builder (pyInt v)) = .ok () →
        (PanasonicNumberEntity.set_native_value applyChanges e v).1.attr_native_value =
          some (pyInt v)) ∧
    (∀ (applyChanges : ChangeRequestBuilder → Except PyErr Unit)
        (e : PanasonicSelectEntity) (opt : String),
        applyChanges (e.entity_description.«set_option»
            e.coordinator.get_change_request_builder opt) = .ok () →
        (PanasonicSelectEntity.select_option applyChanges e opt).1.attr_current_option =
          some opt) ∧
    (∀ (runAction : AquareaAction → Except PyErr Unit)
        (requestRefresh : Except PyErr Unit)
        (e : AquareaSelectEntity) (opt : String) (act : AquareaAction),
        e.entity_description.«set_option» e.coordinator.device opt = .ok act →
        runAction act = .ok () →
        (AquareaSelectEntity.select_option runAction requestRefresh
          e opt).1.attr_current_option = some opt) ∧
    (∀ (setTemperature : ℤ → Nat → Except PyErr Unit)
        (requestRefresh : Except PyErr Unit)
        (e : AquareaNumberEntity) (v : ℚ),
        pyIn "heat-target" e.entity_description.key = true →
        setTemperature (pyInt v) e.entity_description.zone_id = .ok () →
        (AquareaNumberEntity.set_native_value setTemperature requestRefresh
          e v).1.attr_native_value = some ((pyInt v : ℤ) : ℚ)) := by
  refine ⟨fun e d => rfl, fun e d => rfl, fun e d => rfl, ?_, ?_, ?_, ?_, ?_⟩
  · intro e d g hg
    simp only [PanasonicSensorEntity.refresh, PanasonicSensorEntity.update_attrs, hg]
  · intro applyChanges e v h
    simp only [PanasonicNumberEntity.set_native_value, h]
  · intro applyChanges e opt h
    simp only [PanasonicSelectEntity.select_option, h]
  · intro runAction requestRefresh e opt act hset hrun
    simp only [AquareaSelectEntity.select_option, hset, hrun]
  · intro setTemperature requestRefresh e v hkey hset
    simp only [AquareaNumberEntity.set_native_value, hkey, if_true, hset]

/-- C1 witness: the amended projection at the concrete fixtures. -/
theorem C1_display_projection_witness :
    (sampleSensorEntity.refresh sampleDevice).attr_native_value = PyValue.rat 22 ∧
    (PanasonicNumberEntity.set_native_value applyChangesOk sampleNumberEntity
        (mkRat 5 2)).1.attr_native_value = some 2 ∧
    (PanasonicSelectEntity.select_option applyChangesOk sampleSelectEntity
        "Left").1.attr_current_option = some "Left" ∧
    (AquareaSelectEntity.select_option runActionOk (.ok ())
        sampleAquareaSelectEntity "ECO").1.attr_current_option = some "ECO" ∧
    (AquareaNumberEntity.set_native_value setTemperatureOk (.ok ())
        sampleAquareaNumberEntity (mkRat 45 2)).1.attr_native_value = some 22 :=
  ⟨by rw [C1_display_projection.2.2.2.1 sampleSensorEntity sampleDevice _ rfl]; decide,
   by rw [C1_display_projection.2.2.2.2.1 applyChangesOk sampleNumberEntity
       (mkRat 5 2) rfl]; decide,
   by rw [C1_display_projection.2.2.2.2.2.1 applyChangesOk sampleSelectEntity
       "Left" rfl],
   by rw [C1_display_projection.2.2.2.2.2.2.1 runActionOk (.ok ())
       sampleAquareaSelectEntity "ECO" (AquareaAction.setSpecialStatus
         (some SpecialStatus.ECO)) rfl rfl],
   by rw [C1_display_projection.2.2.2.2.2.2.2 setTemperatureOk (.ok ())
       sampleAquareaNumberEntity (mkRat 45 2) (by decide) rfl]; decide⟩

/-- C3 counterexample: a refresh does not always overwrite the cached display
value. When the Aquarea snapshot no longer contains the entity's zone, the
Aquarea number entity keeps whatever value it displayed before, so two
entities that differ only in their stale cached value still differ after
refreshing on the very same snapshot (`zonelessAquareaDevice`). -/
theorem C3_counterexample :
    ¬ (∀ (e₁ e₂ : AquareaNumberEntity) (d : AquareaDevice),
        e₁.coordinator = e₂.coordinator →
        e₁.entity_description = e₂.entity_description →
        (e₁.refresh d).attr_native_value = (e₂.refresh d).attr_native_value) := by
  intro h
  have h99 := h
    { coordinator := sampleAquareaCoordinator
      entity_description := aquareaHeatTargetDescription
      attr_native_value := some 99 }
    { coordinator := sampleAquareaCoordinator
      entity_description := aquareaHeatTargetDescription
      attr_native_value := some 1 }
    zonelessAquareaDevice rfl rfl
  exact absurd h99 (by decide)

/-- C3 amended: a refresh recomputes the displayed value from the new
snapshot and description alone — independently of the previously cached
value — for the Panasonic number, both selects and (when a getter is
present) both sensors; the Aquarea number entity does so only when its zone
is present in the snapshot and its key names a heat or cool target, keeping
the previous value otherwise. -/
theorem C3_refresh_overwrite :
    (∀ (e₁ e₂ : PanasonicNumberEntity) (d : PanasonicDevice),
        e₁.entity_description = e₂.entity_description →
        (e₁.refresh d).attr_native_value = (e₂.refresh d).attr_native_value) ∧
    (∀ (e₁ e₂ : PanasonicSelectEntity) (d : PanasonicDevice),
        e₁.entity_description = e₂.entity_description →
        (e₁.refresh d).attr_current_option = (e₂.refresh d).attr_current_option) ∧
    (∀ (e₁ e₂ : AquareaSelectEntity) (d : AquareaDevice),
        e₁.entity_description = e₂.entity_description →
        (e₁.refresh d).attr_current_option = (e₂.refresh d).attr_current_option) ∧
    (∀ (e₁ e₂ : PanasonicSensorEntity) (d : PanasonicDevice)
        (g : PanasonicDevice → PyValue),
        e₁.entity_description = e₂.entity_description →
        e₁.entity_description.get_state = some g →
        (e₁.refresh d).attr_native_value = (e₂.refresh d).attr_native_value) ∧
    (∀ (e₁ e₂ : AquareaSensorEntity) (d : AquareaDevice)
        (g : AquareaDevice → PyValue),
        e₁.entity_description = e₂.entity_description →
        e₁.entity_description.get_state = some g →
        (e₁.refresh d).attr_native_value = (e₂.refresh d).attr_native_value) ∧
    (∀ (e₁ e₂ : AquareaNumberEntity) (d : AquareaDevice) (z : AquareaZone),
        e₁.entity_description = e₂.entity_description →
        d.zonesGet e₁.entity_description.zone_id = some z →
        (pyIn "heat-target" e₁.entity_description.key ||
          pyIn "cool-target" e₁.entity_description.key) = true →
        (e₁.refresh d).attr_native_value = (e₂.refresh d).attr_native_value) := by
  refine ⟨?_, ?_, ?_, ?_, ?_, ?_⟩
  · intro e₁ e₂ d h
    show some (e₁.entity_description.get_value d) =
      some (e₂.entity_description.get_value d)
    rw [h]
  · intro e₁ e₂ d h
    show some (e₁.entity_description.get_current_option d) =
      some (e₂.entity_description.get_current_option d)
    rw [h]
  · intro e₁ e₂ d h
    show some (e₁.entity_description.get_current_option d) =
      some (e₂.entity_description.get_current_option d)
    rw [h]
  · intro e₁ e₂ d g h hg
    have hg2 : e₂.entity_description.get_state = some g := by rw [← h]; exact hg
    show (match e₁.entity_description.get_state with
          | some g' => g' d
          | none => e₁.attr_native_value) =
        (match e₂.entity_description.get_state with
          | some g' => g' d
          | none => e₂.attr_native_value)
    rw [hg, hg2]
  · intro e₁ e₂ d g h hg
    have hg2 : e₂.entity_description.get_state = some g := by rw [← h]; exact hg
    show (match e₁.entity_description.get_state with
          | some g' => g' d
          | none => e₁.attr_native_value) =
        (match e₂.entity_description.get_state with
          | some g' => g' d
          | none => e₂.attr_native_value)
    rw [hg, hg2]
  · intro e₁ e₂ d z h hz hkeys
    have hz2 : d.zonesGet e₂.entity_description.zone_id = some z := by
      rw [← h]; exact hz
    simp only [AquareaNumberEntity.refresh, AquareaNumberEntity.update_attrs,
      hz, hz2, ← h]
    cases ho : pyIn "heat-target" e₁.entity_description.key with
    | true => simp [ho]
    | false =>
        have hc : pyIn "cool-target" e₁.entity_description.key = true := by
          simpa [ho] using hkeys
        simp [ho, hc]

/-- C3 witness: the amended overwrite at the concrete fixtures; the second
entity of each pair starts from a different stale display value. -/
theorem C3_refresh_overwrite_witness :
    ((sampleNumberEntity.refresh sampleDevice).attr_native_value =
      (PanasonicNumberEntity.refresh
        { sampleNumberEntity with attr_native_value := some 99 }
        sampleDevice).attr_native_value) ∧
    ((sampleSelectEntity.refresh sampleDevice).attr_current_option =
      (PanasonicSelectEntity.refresh
        { sampleSelectEntity with attr_current_option := some "stale" }
        sampleDevice).attr_current_option) ∧
    ((sampleAquareaSelectEntity.refresh sampleAquareaDevice).attr_current_option =
      (AquareaSelectEntity.refresh
        { sampleAquareaSelectEntity with attr_current_option := some "stale" }
        sampleAquareaDevice).attr_current_option) ∧
    ((sampleSensorEntity.refresh sampleDevice).attr_native_value =
      (PanasonicSensorEntity.refresh
        { sampleSensorEntity with attr_native_value := PyValue.int 99 }
        sampleDevice).attr_native_value) ∧
    ((sampleAquareaSensorEntity.refresh sampleAquareaDevice).attr_native_value =
      (AquareaSensorEntity.refresh
        { sampleAquareaSensorEntity with attr_native_value := PyValue.int 99 }
        sampleAquareaDevice).attr_native_value) ∧
    ((sampleAquareaNumberEntity.refresh sampleAquareaDevice).attr_native_value =
      (AquareaNumberEntity.refresh
        { sampleAquareaNumberEntity with attr_native_value := some 99 }
        sampleAquareaDevice).attr_native_value) :=
  ⟨C3_refresh_overwrite.1 _ _ sampleDevice rfl,
   C3_refresh_overwrite.2.1 _ _ sampleDevice rfl,
   C3_refresh_overwrite.2.2.1 _ _ sampleAquareaDevice rfl,
   C3_refresh_overwrite.2.2.2.1 _ _ sampleDevice _ rfl rfl,
   C3_refresh_overwrite.2.2.2.2.1 _ _ sampleAquareaDevice _ rfl rfl,
   C3_refresh_overwrite.2.2.2.2.2 _ _ sampleAquareaDevice sampleAquareaZone
     rfl rfl (by decide)⟩

/-- C4: when the delegated vendor/coordinator call raises during a user
write, the same exception is the operation's result and the entity state —
in particular its displayed attribute — is exactly what it was before the
write, on all four writable entity classes. -/
theorem C4_error_propagation :
    (∀ (applyChanges : ChangeRequestBuilder → Except PyErr Unit)
        (e : PanasonicNumberEntity) (v : ℚ) (err : PyErr),
        applyChanges (e.entity_description.«set_value»
            e.coordinator.get_change_request_builder (pyInt v)) = .error err →
        (PanasonicNumberEntity.set_native_value applyChanges e v).2.2 =
            .error err ∧
          (PanasonicNumberEntity.set_native_value applyChanges e v).1 = e) ∧
    (∀ (applyChanges : ChangeRequestBuilder → Except PyErr Unit)
        (e : PanasonicSelectEntity) (opt : String) (err : PyErr),
        applyChanges (e.entity_description.«set_option»
            e.coordinator.get_change_request_builder opt) = .error err →
        (PanasonicSelectEntity.select_option applyChanges e opt).2.2 =
            .error err ∧
          (PanasonicSelectEntity.select_option applyChanges e opt).1 = e) ∧
    (∀ (setTemperature : ℤ → Nat → Except PyErr Unit)
        (requestRefresh : Except PyErr Unit)
        (e : AquareaNumberEntity) (v : ℚ) (err : PyErr),
        pyIn "heat-target" e.entity_description.key = true →
        setTemperature (pyInt v) e.entity_description.zone_id = .error err →
        (AquareaNumberEntity.set_native_value setTemperature requestRefresh
            e v).2.2 = .error err ∧
          (AquareaNumberEntity.set_native_value setTemperature requestRefresh
            e v).1 = e) ∧
    (∀ (runAction : AquareaAction → Except PyErr Unit)
        (requestRefresh : Except PyErr Unit)
        (e : AquareaSelectEntity) (opt : String) (act : AquareaAction)
        (err : PyErr),
        e.entity_description.«set_option» e.coordinator.device opt = .ok act →
        runAction act = .error err →
        (AquareaSelectEntity.select_option runAction requestRefresh
            e opt).2.2 = .error err ∧
          (AquareaSelectEntity.select_option runAction requestRefresh
            e opt).1 = e) := by
  refine ⟨?_, ?_, ?_, ?_⟩
  · intro applyChanges e v err h
    exact ⟨by simp only [PanasonicNumberEntity.set_native_value, h],
      by simp only [PanasonicNumberEntity.set_native_value, h]⟩
  · intro applyChanges e opt err h
    exact ⟨by simp only [PanasonicSelectEntity.select_option, h],
      by simp only [PanasonicSelectEntity.select_option, h]⟩
  · intro setTemperature requestRefresh e v err hkey hset
    exact ⟨by simp only [AquareaNumberEntity.set_native_value, hkey,
        if_true, hset],
      by simp only [AquareaNumberEntity.set_native_value, hkey,
        if_true, hset]⟩
  · intro runAction requestRefresh e opt act err hset hrun
    exact ⟨by simp only [AquareaSelectEntity.select_option, hset, hrun],
      by simp only [AquareaSelectEntity.select_option, hset, hrun]⟩

/-- C4 witness: failing collaborators at the concrete fixtures; each raise
propagates and leaves the entity untouched. -/
theorem C4_error_propagation_witness :
    ((PanasonicNumberEntity.set_native_value applyChangesFail
        sampleNumberEntity 30).2.2 = .error (.vendorError 7) ∧
      (PanasonicNumberEntity.set_native_value applyChangesFail
        sampleNumberEntity 30).1 = sampleNumberEntity) ∧
    ((PanasonicSelectEntity.select_option applyChangesFail
        sampleSelectEntity "Left").2.2 = .error (.vendorError 7) ∧
      (PanasonicSelectEntity.select_option applyChangesFail
        sampleSelectEntity "Left").1 = sampleSelectEntity) ∧
    ((AquareaNumberEntity.set_native_value setTemperatureFail (.ok ())
        sampleAquareaNumberEntity 22).2.2 = .error (.vendorError 3) ∧
      (AquareaNumberEntity.set_native_value setTemperatureFail (.ok ())
        sampleAquareaNumberEntity 22).1 = sampleAquareaNumberEntity) ∧
    ((AquareaSelectEntity.select_option runActionFail (.ok ())
        sampleAquareaSelectEntity "ECO").2.2 = .error (.vendorError 5) ∧
      (AquareaSelectEntity.select_option runActionFail (.ok ())
        sampleAquareaSelectEntity "ECO").1 = sampleAquareaSelectEntity) :=
  ⟨C4_error_propagation.1 applyChangesFail sampleNumberEntity 30 _ rfl,
   C4_error_propagation.2.1 applyChangesFail sampleSelectEntity "Left" _ rfl,
   C4_error_propagation.2.2.1 setTemperatureFail (.ok ())
     sampleAquareaNumberEntity 22 _ (by decide) rfl,
   C4_error_propagation.2.2.2 runActionFail (.ok ())
     sampleAquareaSelectEntity "ECO"
     (AquareaAction.setSpecialStatus (some SpecialStatus.ECO)) _ rfl rfl⟩

/-- C5: entity description records are immutable. Every state-changing
operation of every entity class — refresh callbacks, user writes, and the
energy sensor's attribute update — returns an entity whose
`entity_description` is exactly the one it started with; the availability
queries are pure functions and change no state at all. -/
theorem C5_description_immutable :
    (∀ (e : PanasonicNumberEntity) (d : PanasonicDevice),
        (e.refresh d).entity_description = e.entity_description) ∧
    (∀ (applyChanges : ChangeRequestBuilder → Except PyErr Unit)
        (e : PanasonicNumberEntity) (v : ℚ),
        (PanasonicNumberEntity.set_native_value applyChanges
          e v).1.entity_description = e.entity_description) ∧
    (∀ (e : AquareaNumberEntity) (d : AquareaDevice),
        (e.refresh d).entity_description = e.entity_description) ∧
    (∀ (setTemperature : ℤ → Nat → Except PyErr Unit)
        (requestRefresh : Except PyErr Unit)
        (e : AquareaNumberEntity) (v : ℚ),
        (AquareaNumberEntity.set_native_value setTemperature requestRefresh
          e v).1.entity_description = e.entity_description) ∧
    (∀ (e : PanasonicSelectEntity) (d : PanasonicDevice),
        (e.refresh d).entity_description = e.entity_description) ∧
    (∀ (applyChanges : ChangeRequestBuilder → Except PyErr Unit)
        (e : PanasonicSelectEntity) (opt : String),
        (PanasonicSelectEntity.select_option applyChanges
          e opt).1.entity_description = e.entity_description) ∧
    (∀ (e : AquareaSelectEntity) (d : AquareaDevice),
        (e.refresh d).entity_description = e.entity_description) ∧
    (∀ (runAction : AquareaAction → Except PyErr Unit)
        (requestRefresh : Except PyErr Unit)
        (e : AquareaSelectEntity) (opt : String),
        (AquareaSelectEntity.select_option runAction requestRefresh
          e opt).1.entity_description = e.entity_description) ∧
    (∀ (e : PanasonicSensorEntity) (d : PanasonicDevice),
        (e.refresh d).entity_description = e.entity_description) ∧
    (∀ (e : AquareaSensorEntity) (d : AquareaDevice),
        (e.refresh d).entity_description = e.entity_description) ∧
    (∀ (e : PanasonicEnergySensorEntity),
        (e.update_attrs).1.entity_description = e.entity_description) := by
  refine ⟨fun e d => rfl, ?_, fun e d => rfl, ?_, fun e d => rfl, ?_,
    fun e d => rfl, ?_, fun e d => rfl, fun e d => rfl, ?_⟩
  · intro applyChanges e v
    simp only [PanasonicNumberEntity.set_native_value]
    split <;> rfl
  · intro setTemperature requestRefresh e v
    simp only [AquareaNumberEntity.set_native_value]
    split <;> rfl
  · intro applyChanges e opt
    simp only [PanasonicSelectEntity.select_option]
    split <;> rfl
  · intro runAction requestRefresh e opt
    simp only [AquareaSelectEntity.select_option]
    split <;> (try split) <;> rfl
  · intro e
    simp only [PanasonicEnergySensorEntity.update_attrs]
    split <;> rfl

/-- C7: Panasonic comfort-cloud writes go exclusively through the builder
protocol. The concrete setters stage their change request onto the builder
they are given and hand back the same object (same identity, one appended
change); in a write, the builder passed to `async_apply_changes` is exactly
the fresh builder from `get_change_request_builder` after the description's
setter staged on it — it is the only builder ever applied — and the entity's
coordinator (with its `device` snapshot) is never written by the entity
itself, on success or failure. -/
theorem C7_builder_protocol :
    (∀ (z : PanasonicDeviceZone) (b : ChangeRequestBuilder) (v : ℤ),
        (create_zone_damper_description z).«set_value» b v =
          { b with changes := b.changes ++ [ChangeRequest.zoneDamper z.id v] }) ∧
    (∀ (b : ChangeRequestBuilder) (opt : String),
        HORIZONTAL_SWING_DESCRIPTION.«set_option» b opt =
          { b with changes := b.changes ++ [ChangeRequest.horizontalSwing opt] }) ∧
    (∀ (b : ChangeRequestBuilder) (opt : String),
        VERTICAL_SWING_DESCRIPTION.«set_option» b opt =
          { b with changes := b.changes ++ [ChangeRequest.verticalSwing opt] }) ∧
    (∀ (applyChanges : ChangeRequestBuilder → Except PyErr Unit)
        (e : PanasonicNumberEntity) (v : ℚ),
        Effect.applyChanges (e.entity_description.«set_value»
            e.coordinator.get_change_request_builder (pyInt v)) ∈
          (PanasonicNumberEntity.set_native_value applyChanges e v).2.1) ∧
    (∀ (applyChanges : ChangeRequestBuilder → Except PyErr Unit)
        (e : PanasonicNumberEntity) (v : ℚ) (b' : ChangeRequestBuilder),
        Effect.applyChanges b' ∈
          (PanasonicNumberEntity.set_native_value applyChanges e v).2.1 →
        b' = e.entity_description.«set_value»
          e.coordinator.get_change_request_builder (pyInt v)) ∧
    (∀ (applyChanges : ChangeRequestBuilder → Except PyErr Unit)
        (e : PanasonicSelectEntity) (opt : String),
        Effect.applyChanges (e.entity_description.«set_option»
            e.coordinator.get_change_request_builder opt) ∈
          (PanasonicSelectEntity.select_option applyChanges e opt).2.1) ∧
    (∀ (applyChanges : ChangeRequestBuilder → Except PyErr Unit)
        (e : PanasonicSelectEntity) (opt : String) (b' : ChangeRequestBuilder),
        Effect.applyChanges b' ∈
          (PanasonicSelectEntity.select_option applyChanges e opt).2.1 →
        b' = e.entity_description.«set_option»
          e.coordinator.get_change_request_builder opt) ∧
    (∀ (applyChanges : ChangeRequestBuilder → Except PyErr Unit)
        (e : PanasonicNumberEntity) (v : ℚ),
        (PanasonicNumberEntity.set_native_value applyChanges
          e v).1.coordinator = e.coordinator) ∧
    (∀ (applyChanges : ChangeRequestBuilder → Except PyErr Unit)
        (e : PanasonicSelectEntity) (opt : String),
        (PanasonicSelectEntity.select_option applyChanges
          e opt).1.coordinator = e.coordinator) := by
  refine ⟨fun z b v => rfl, fun b opt => rfl, fun b opt => rfl,
    ?_, ?_, ?_, ?_, ?_, ?_⟩
  · intro applyChanges e v
    simp only [PanasonicNumberEntity.set_native_value]
    split <;> simp
  · intro applyChanges e v b' hmem
    simp only [PanasonicNumberEntity.set_native_value] at hmem
    revert hmem
    split <;> (intro hmem; simp at hmem; exact hmem)
  · intro applyChanges e opt
    simp only [PanasonicSelectEntity.select_option]
    split <;> simp
  · intro applyChanges e opt b' hmem
    simp only [PanasonicSelectEntity.select_option] at hmem
    revert hmem
    split <;> (intro hmem; simp at hmem; exact hmem)
  · intro applyChanges e v
    simp only [PanasonicNumberEntity.set_native_value]
    split <;> rfl
  · intro applyChanges e opt
    simp only [PanasonicSelectEntity.select_option]
    split <;> rfl

/-- C7 witness: the builder chain at the concrete damper write — the only
builder applied is the fresh builder 42 with the staged damper change, and
the local snapshot is untouched. -/
theorem C7_builder_protocol_witness :
    ((create_zone_damper_description sampleZone).«set_value»
        { oid := 42, changes := [] } 30 =
      { oid := 42, changes := [ChangeRequest.zoneDamper 1 30] }) ∧
    (Effect.applyChanges { oid := 42, changes := [ChangeRequest.zoneDamper 1 30] } ∈
      (PanasonicNumberEntity.set_native_value applyChangesOk
        sampleNumberEntity 30).2.1) ∧
    ({ oid := 42, changes := [ChangeRequest.zoneDamper 1 30] } :
        ChangeRequestBuilder) =
      (sampleNumberEntity.entity_description.«set_value»
        sampleNumberEntity.coordinator.get_change_request_builder (pyInt 30)) ∧
    ((PanasonicNumberEntity.set_native_value applyChangesOk
        sampleNumberEntity 30).1.coordinator = sampleCoordinator) :=
  ⟨C7_builder_protocol.1 sampleZone { oid := 42, changes := [] } 30,
   by
     have hm := C7_builder_protocol.2.2.2.1 applyChangesOk sampleNumberEntity 30
     exact (by decide :
       (Effect.applyChanges (sampleNumberEntity.entity_description.«set_value»
          sampleNumberEntity.coordinator.get_change_request_builder (pyInt 30)) =
        Effect.applyChanges
          { oid := 42, changes := [ChangeRequest.zoneDamper 1 30] })) ▸ hm,
   C7_builder_protocol.2.2.2.2.1 applyChangesOk sampleNumberEntity 30
     { oid := 42, changes := [ChangeRequest.zoneDamper 1 30] } (by decide),
   C7_builder_protocol.2.2.2.2.2.2.2.1 applyChangesOk sampleNumberEntity 30⟩

/-- C8: number writes truncate. `pyInt` is exactly integer truncation toward
zero (floor for nonnegative, ceiling for negative); the builder handed to
`async_apply_changes` stages `int(v)`, the Aquarea write calls
`set_temperature` with `int(v)`, and on success both classes display
`int(v)`, never the fractional value. -/
theorem C8_int_truncation :
    (∀ (q : ℚ), pyInt q = if 0 ≤ q then ⌊q⌋ else ⌈q⌉) ∧
    (∀ (applyChanges : ChangeRequestBuilder → Except PyErr Unit)
        (e : PanasonicNumberEntity) (v : ℚ),
        Effect.applyChanges (e.entity_description.«set_value»
            e.coordinator.get_change_request_builder (pyInt v)) ∈
          (PanasonicNumberEntity.set_native_value applyChanges e v).2.1) ∧
    (∀ (applyChanges : ChangeRequestBuilder → Except PyErr Unit)
        (e : PanasonicNumberEntity) (v : ℚ),
        applyChanges (e.entity_description.«set_value»
            e.coordinator.get_change_request_builder (pyInt v)) = .ok () →
        (PanasonicNumberEntity.set_native_value applyChanges
          e v).1.attr_native_value = some (pyInt v)) ∧
    (∀ (setTemperature : ℤ → Nat → Except PyErr Unit)
        (requestRefresh : Except PyErr Unit)
        (e : AquareaNumberEntity) (v : ℚ),
        (pyIn "heat-target" e.entity_description.key ||
          pyIn "cool-target" e.entity_description.key) = true →
        Effect.deviceSetTemperature (pyInt v) e.entity_description.zone_id ∈
          (AquareaNumberEntity.set_native_value setTemperature requestRefresh
            e v).2.1) ∧
    (∀ (setTemperature : ℤ → Nat → Except PyErr Unit)
        (requestRefresh : Except PyErr Unit)
        (e : AquareaNumberEntity) (v : ℚ),
        (pyIn "heat-target" e.entity_description.key ||
          pyIn "cool-target" e.entity_description.key) = true →
        setTemperature (pyInt v) e.entity_description.zone_id = .ok () →
        (AquareaNumberEntity.set_native_value setTemperature requestRefresh
          e v).1.attr_native_value = some ((pyInt v : ℤ) : ℚ)) := by
  refine ⟨pyInt_eq_trunc, ?_, ?_, ?_, ?_⟩
  · intro applyChanges e v
    simp only [PanasonicNumberEntity.set_native_value]
    split <;> simp
  · intro applyChanges e v h
    simp only [PanasonicNumberEntity.set_native_value, h]
  · intro setTemperature requestRefresh e v hkeys
    cases ho : pyIn "heat-target" e.entity_description.key with
    | true =>
        cases hres : setTemperature (pyInt v) e.entity_description.zone_id with
        | error err => simp [AquareaNumberEntity.set_native_value, ho, hres]
        | ok u => simp [AquareaNumberEntity.set_native_value, ho, hres]
    | false =>
        have hc : pyIn "cool-target" e.entity_description.key = true := by
          simpa [ho] using hkeys
        cases hres : setTemperature (pyInt v) e.entity_description.zone_id with
        | error err =>
            simp [AquareaNumberEntity.set_native_value, ho, hc, hres]
        | ok u =>
            simp [AquareaNumberEntity.set_native_value, ho, hc, hres]
  · intro setTemperature requestRefresh e v hkeys hset
    cases ho : pyIn "heat-target" e.entity_description.key with
    | true =>
        simp only [AquareaNumberEntity.set_native_value, ho, if_true, hset]
    | false =>
        have hc : pyIn "cool-target" e.entity_description.key = true := by
          simpa [ho] using hkeys
        simp only [AquareaNumberEntity.set_native_value, ho, hc,
          Bool.false_eq_true, if_false, if_true, hset]

/-- C8 witness: writing 2.5 stages and displays 2; writing 22.5 as an Aquarea
heat target calls `set_temperature` with 22 and displays 22; writing 18.5 as
an Aquarea cool target calls `set_temperature` with 18 and displays 18. -/
theorem C8_int_truncation_witness :
    (pyInt (mkRat 5 2) = if 0 ≤ (mkRat 5 2 : ℚ) then ⌊(mkRat 5 2 : ℚ)⌋
      else ⌈(mkRat 5 2 : ℚ)⌉) ∧
    (Effect.applyChanges { oid := 42, changes := [ChangeRequest.zoneDamper 1 2] } ∈
      (PanasonicNumberEntity.set_native_value applyChangesOk
        sampleNumberEntity (mkRat 5 2)).2.1) ∧
    ((PanasonicNumberEntity.set_native_value applyChangesOk
        sampleNumberEntity (mkRat 5 2)).1.attr_native_value = some 2) ∧
    (Effect.deviceSetTemperature 22 1 ∈
      (AquareaNumberEntity.set_native_value setTemperatureOk (.ok ())
        sampleAquareaNumberEntity (mkRat 45 2)).2.1) ∧
    ((AquareaNumberEntity.set_native_value setTemperatureOk (.ok ())
        sampleAquareaNumberEntity (mkRat 45 2)).1.attr_native_value = some 22) ∧
    (Effect.deviceSetTemperature 18 1 ∈
      (AquareaNumberEntity.set_native_value setTemperatureOk (.ok ())
        sampleAquareaCoolNumberEntity (mkRat 37 2)).2.1) ∧
    ((AquareaNumberEntity.set_native_value setTemperatureOk (.ok ())
        sampleAquareaCoolNumberEntity (mkRat 37 2)).1.attr_native_value =
      some 18) :=
  ⟨C8_int_truncation.1 (mkRat 5 2),
   by
     have hm := C8_int_truncation.2.1 applyChangesOk sampleNumberEntity (mkRat 5 2)
     exact (by decide :
       (Effect.applyChanges (sampleNumberEntity.entity_description.«set_value»
          sampleNumberEntity.coordinator.get_change_request_builder
          (pyInt (mkRat 5 2))) =
        Effect.applyChanges
          { oid := 42, changes := [ChangeRequest.zoneDamper 1 2] })) ▸ hm,
   by rw [C8_int_truncation.2.2.1 applyChangesOk sampleNumberEntity
       (mkRat 5 2) rfl]; decide,
   by
     have hm := C8_int_truncation.2.2.2.1 setTemperatureOk (.ok ())
       sampleAquareaNumberEntity (mkRat 45 2) (by decide)
     exact (by decide :
       (Effect.deviceSetTemperature (pyInt (mkRat 45 2))
          sampleAquareaNumberEntity.entity_description.zone_id =
        Effect.deviceSetTemperature 22 1)) ▸ hm,
   by rw [C8_int_truncation.2.2.2.2 setTemperatureOk (.ok ())
       sampleAquareaNumberEntity (mkRat 45 2) (by decide) rfl]; decide,
   by
     have hm := C8_int_truncation.2.2.2.1 setTemperatureOk (.ok ())
       sampleAquareaCoolNumberEntity (mkRat 37 2) (by decide)
     exact (by decide :
       (Effect.deviceSetTemperature (pyInt (mkRat 37 2))
          sampleAquareaCoolNumberEntity.entity_description.zone_id =
        Effect.deviceSetTemperature 18 1)) ▸ hm,
   by rw [C8_int_truncation.2.2.2.2 setTemperatureOk (.ok ())
       sampleAquareaCoolNumberEntity (mkRat 37 2) (by decide) rfl]; decide⟩

end PanasonicCC
